import Mathlib

/-!
Shallow embedding of `src/transcriber.py` (class `HQTranscriber`).

Conventions of the embedding:
* Python `float` seconds values are modelled as exact rationals (`ℚ`); every
  concrete value used by the spec's examples (3725.125, 1.5, ...) is exactly
  representable as a binary float, so float and rational arithmetic agree there.
* Python strings are Lean `String`s; `str.strip()` is modelled over the six
  ASCII whitespace characters Python recognises.
* Filesystem state is a record of directory paths and file paths (paths are
  component lists); collaborator invocations (audio loader, inference adapter)
  are recorded as an event trace, and file writes as a list of
  (path, payload) pairs. The inference adapter and its metadata are inputs
  to the model (they are external collaborators), and JSON serialization by
  the standard library is treated as opaque: the json payload carries the
  full result record that `json.dump` would serialize.
-/

namespace SyncScribe

/-- The six ASCII characters Python's `str.strip()` removes by default
(Unicode whitespace is out of scope for the texts handled here). -/
def pyWhitespace (c : Char) : Bool :=
  c = ' ' || c = '\t' || c = '\n' || c = '\r' || c = '\x0b' || c = '\x0c'

/-- Python `str.strip()`: drop leading and trailing whitespace. -/
def pyStrip (s : String) : String :=
  String.mk (((s.data.dropWhile pyWhitespace).reverse.dropWhile pyWhitespace).reverse)

/-- Concatenation of a list of strings in order (spec-side vocabulary for
"the concatenation of each segment's raw text in emission order"). -/
def concatAll : List String → String
  | [] => ""
  | s :: rest => s ++ concatAll rest

/-- Left-pad a rendered number with zeros to the given width, as Python's
zero-padded format specifiers (`{:02d}`, `{:06.3f}`) do for non-negative
values: shorter renderings gain leading zeros, longer ones are untouched. -/
def padZeros (width : ℕ) (s : String) : String :=
  if s.length < width then String.mk (List.replicate (width - s.length) '0') ++ s else s

/-- Python `{n:02d}` for a non-negative value. -/
def fmt2 (n : ℕ) : String := padZeros 2 (toString n)

/-- Exactly three digits, zero padded (the fractional part of `{:.3f}`). -/
def fmt3 (n : ℕ) : String := padZeros 3 (toString n)

/-- Round half to even, the rounding CPython's float formatting applies to
the (here exact) decimal value when trimming to a fixed number of decimals. -/
def rndHalfEven (q : ℚ) : ℤ :=
  let f := ⌊q⌋
  let frac := q - f
  if frac < 1/2 then f
  else if 1/2 < frac then f + 1
  else if 2 ∣ f then f else f + 1

/-- Python `f"{secs:06.3f}"` for a non-negative `secs`: three decimal digits
after rounding, whole string zero-padded to width 6 (hence at least two
digits before the decimal point). -/
def fmtSecs (secs : ℚ) : String :=
  let m := (rndHalfEven (1000 * secs)).toNat
  padZeros 6 (toString (m / 1000) ++ "." ++ fmt3 (m % 1000))

/-- Replace every `'.'` by `','`: the effect of Python's
`.replace(".", ",")` for the single-character pattern `"."`. -/
def charReplace : List Char → List Char
  | [] => []
  | c :: cs => (if c = '.' then ',' else c) :: charReplace cs

/-- `HQTranscriber._format_timestamp` (src/transcriber.py:360-369).
`hours = int(seconds // 3600)`, `minutes = int((seconds % 3600) // 60)`,
`secs = seconds % 60`, rendered `f"{hours:02d}:{minutes:02d}:{secs:06.3f}"`,
with every `.` replaced by `,` in the non-VTT (SRT) style. The embedding is
for the non-negative domain (the spec leaves `seconds < 0` undefined). -/
def _format_timestamp (seconds : ℚ) (vtt : Bool) : String :=
  let hours := (⌊seconds / 3600⌋).toNat
  let minutes := (⌊(seconds - 3600 * (⌊seconds / 3600⌋ : ℚ)) / 60⌋).toNat
  let secs := seconds - 60 * (⌊seconds / 60⌋ : ℚ)
  let base := fmt2 hours ++ ":" ++ fmt2 minutes ++ ":" ++ fmtSecs secs
  if vtt then base else String.mk (charReplace base.data)

/-- The `HH:MM:SS.mmm` rendering for an exact whole number of milliseconds,
in pure natural-number arithmetic (proof vehicle for evaluating
`_format_timestamp` on concrete inputs). -/
def fmtMillis (n : ℕ) : String :=
  fmt2 (n / 3600000) ++ ":" ++ fmt2 (n % 3600000 / 60000) ++ ":" ++
    padZeros 6 (toString (n % 60000 / 1000) ++ "." ++ fmt3 (n % 60000 % 1000))

/-- A word-level timestamp record as emitted by the inference adapter. -/
structure Word where
  word : String
  start : ℚ
  «end» : ℚ
  probability : ℚ
deriving DecidableEq

/-- A segment as emitted by the inference adapter (`faster_whisper`):
text is raw (untrimmed); `words` is the optional word list, where the
empty list stands for the falsy cases (`None` or `[]`) of
`if hasattr(segment, 'words') and segment.words`. -/
structure Segment where
  id : ℤ
  start : ℚ
  «end» : ℚ
  text : String
  avg_logprob : ℚ
  no_speech_prob : ℚ
  compression_ratio : ℚ
  temperature : ℚ
  words : List Word
deriving DecidableEq

/-- The plain record `segment_dict` built by the aggregation loop
(src/transcriber.py:225-246): text stored stripped, `words` key present
only when the adapter reported a non-empty word list. -/
structure SegmentDict where
  id : ℤ
  start : ℚ
  «end» : ℚ
  text : String
  avg_logprob : ℚ
  no_speech_prob : ℚ
  compression_ratio : ℚ
  temperature : ℚ
  words : Option (List Word)
deriving DecidableEq

/-- One iteration of the aggregation loop: build `segment_dict` from an
emitted segment (src/transcriber.py:225-246). -/
def toSegmentDict (segment : Segment) : SegmentDict :=
  { id := segment.id
    start := segment.start
    «end» := segment.«end»
    text := pyStrip segment.text
    avg_logprob := segment.avg_logprob
    no_speech_prob := segment.no_speech_prob
    compression_ratio := segment.compression_ratio
    temperature := segment.temperature
    words := if segment.words = [] then none else some segment.words }

/-- The aggregation loop of `transcribe` (src/transcriber.py:221-249):
drains the segment stream once, appending each converted record to
`segment_list` and the raw segment text to `full_text`. -/
def processSegments (segments : List Segment) : List SegmentDict × String :=
  segments.foldl
    (fun acc segment => (acc.1 ++ [toSegmentDict segment], acc.2 ++ segment.text))
    ([], "")

/-- Summary metadata returned by the inference adapter (`info`). -/
structure TranscriptionInfo where
  language : String
  language_probability : ℚ
  duration : ℚ
  duration_after_vad : ℚ
deriving DecidableEq

/-- The result dictionary built by `transcribe` (src/transcriber.py:253-273).
Wall-clock timing and the settings echo are omitted: they copy external
inputs unchanged and no claim concerns them. -/
structure TranscriptionResult where
  text : String
  segments : List SegmentDict
  language : String
  language_probability : ℚ
  duration : ℚ
  duration_after_vad : ℚ
  audio_file : List String
deriving DecidableEq

/-- Filesystem state: the set of existing directories and files, each as a
path given by its components. -/
structure FS where
  dirs : List (List String)
  files : List (List String)
deriving DecidableEq

/-- Collaborator invocations performed by `transcribe`: the audio loader
(`preprocess_audio`) and the inference adapter (`self.model.transcribe`). -/
inductive CollabEvent
  | loadAudio
  | modelTranscribe
deriving DecidableEq

/-- Failures raised by the embedded slice of the pipeline. -/
inductive TranscribeError
  | fileNotFound (path : List String)
deriving DecidableEq

/-- `HQTranscriber.transcribe` (src/transcriber.py:112-283): checks
`os.path.exists` first and raises `FileNotFoundError` before calling any
collaborator; otherwise calls the loader then the adapter (whose emitted
segments and metadata are the `modelSegments` / `info` inputs here), drains
the stream, and returns the result record with the outer-stripped full
text. The second component is the trace of collaborator invocations. -/
def transcribe (fs : FS) (modelSegments : List Segment) (info : TranscriptionInfo)
    (audio_path : List String) :
    Except TranscribeError TranscriptionResult × List CollabEvent :=
  if audio_path ∉ fs.files then
    (Except.error (TranscribeError.fileNotFound audio_path), [])
  else
    let (segment_list, full_text) := processSegments modelSegments
    (Except.ok
      { text := pyStrip full_text
        segments := segment_list
        language := info.language
        language_probability := info.language_probability
        duration := info.duration
        duration_after_vad := info.duration_after_vad
        audio_file := audio_path },
      [CollabEvent.loadAudio, CollabEvent.modelTranscribe])

/-- One SRT block (src/transcriber.py:343-348): index line from the
writer's running counter, the timestamp line in SRT style, the stripped
text, then a blank line. -/
def srtBlock (i : ℕ) (segment : SegmentDict) : String :=
  toString i ++ "\n" ++
    _format_timestamp segment.start false ++ " --> " ++
    _format_timestamp segment.«end» false ++ "\n" ++
    pyStrip segment.text ++ "\n\n"

/-- The `for i, segment in enumerate(segments, 1)` loop of `_save_srt`. -/
def srtBody : ℕ → List SegmentDict → String
  | _, [] => ""
  | i, segment :: rest => srtBlock i segment ++ srtBody (i + 1) rest

/-- `HQTranscriber._save_srt` (src/transcriber.py:340-348): the full file
content written for a segment list. -/
def _save_srt (segments : List SegmentDict) : String := srtBody 1 segments

/-- One VTT cue block (src/transcriber.py:355-358): timestamp line in VTT
style, the stripped text, then a blank line; no index line. -/
def vttBlock (segment : SegmentDict) : String :=
  _format_timestamp segment.start true ++ " --> " ++
    _format_timestamp segment.«end» true ++ "\n" ++
    pyStrip segment.text ++ "\n\n"

/-- The per-segment loop of `_save_vtt`. -/
def vttBody : List SegmentDict → String
  | [] => ""
  | segment :: rest => vttBlock segment ++ vttBody rest

/-- `HQTranscriber._save_vtt` (src/transcriber.py:350-358): the literal
`WEBVTT` header, a blank line, then the cue blocks. -/
def _save_vtt (segments : List SegmentDict) : String := "WEBVTT\n\n" ++ vttBody segments

/-- Payload of one output-file write; the json payload holds the result
record that the standard library serializer would render. -/
inductive OutputPayload
  | txtFile (content : String)
  | jsonFile (result : TranscriptionResult)
  | srtFile (content : String)
  | vttFile (content : String)
deriving DecidableEq

/-- The four format tags `transcribe_file` recognises. -/
def knownFormats : List String := ["txt", "json", "srt", "vtt"]

/-- One iteration of the `for fmt in output_formats` dispatch
(src/transcriber.py:314-336): a recognised tag appends one write, any
other tag falls through the `if/elif` chain and leaves the state alone. -/
def writeStep (output_path : List String) (base_name : String)
    (result : TranscriptionResult) (acc : List (List String × OutputPayload))
    (fmt : String) : List (List String × OutputPayload) :=
  if fmt = "txt" then
    acc ++ [(output_path ++ [base_name ++ "_transcript.txt"],
             OutputPayload.txtFile result.text)]
  else if fmt = "json" then
    acc ++ [(output_path ++ [base_name ++ "_transcript.json"],
             OutputPayload.jsonFile result)]
  else if fmt = "srt" then
    acc ++ [(output_path ++ [base_name ++ "_transcript.srt"],
             OutputPayload.srtFile (_save_srt result.segments))]
  else if fmt = "vtt" then
    acc ++ [(output_path ++ [base_name ++ "_transcript.vtt"],
             OutputPayload.vttFile (_save_vtt result.segments))]
  else acc

/-- All writes performed by the format loop of `transcribe_file`, in order. -/
def writeOutputs (output_path : List String) (base_name : String)
    (result : TranscriptionResult) (output_formats : List String) :
    List (List String × OutputPayload) :=
  output_formats.foldl (writeStep output_path base_name result) []

/-- Python `Path.mkdir(parents=True, exist_ok=True)`: create the directory
and every ancestor; existing directories are left in place (directory
membership is by path, duplicates are harmless). -/
def mkdir_parents (p : List String) (fs : FS) : FS :=
  { fs with dirs := fs.dirs ++ (List.range p.length).map (fun k => p.take (k + 1)) }

/-- Python `Path(name).stem` for a file name component: the name without
its final dot-suffix (a name with no dot, or only a leading dot, is its
own stem). -/
def path_stem (name : String) : String :=
  let r := name.data.reverse
  let tail_rev := r.takeWhile (fun c => c ≠ '.')
  if tail_rev.length = r.length then name
  else
    let base := (r.drop (tail_rev.length + 1)).reverse
    if base = [] then name else String.mk base

/-- `HQTranscriber.transcribe_file` (src/transcriber.py:285-338): resolve
the output directory (creating it, parents included, when given), then run
`transcribe`, then the format-dispatch loop; an error from `transcribe`
propagates after the directory creation already happened. Returns the
outcome, the final filesystem state, and the collaborator trace. -/
def transcribe_file (fs : FS) (modelSegments : List Segment)
    (info : TranscriptionInfo) (audio_path : List String)
    (output_path : Option (List String)) (output_formats : List String) :
    Except TranscribeError (TranscriptionResult × List (List String × OutputPayload))
      × FS × List CollabEvent :=
  let out_dir := match output_path with
    | none => audio_path.dropLast
    | some p => p
  let fs1 := match output_path with
    | none => fs
    | some p => mkdir_parents p fs
  match transcribe fs1 modelSegments info audio_path with
  | (Except.error e, events) => (Except.error e, fs1, events)
  | (Except.ok result, events) =>
    let base_name := path_stem (audio_path.getLastD "")
    let writes := writeOutputs out_dir base_name result output_formats
    (Except.ok (result, writes),
     { fs1 with files := fs1.files ++ writes.map Prod.fst }, events)

/-- Adapter metadata used by the concrete examples. -/
def exInfo : TranscriptionInfo :=
  { language := "en", language_probability := 99/100, duration := 3,
    duration_after_vad := 3 }

/-- A segment with the given id, times and raw text (the confidence
metrics are fixed representative values; no claim depends on them). -/
def mkSeg (i : ℤ) (s t : ℚ) (txt : String) : Segment :=
  { id := i, start := s, «end» := t, text := txt, avg_logprob := -1/10,
    no_speech_prob := 1/100, compression_ratio := 1, temperature := 0,
    words := [] }

/-- First cue of the subtitle examples; its stored ordinal id 42 differs
from its 1-based position. -/
def hiCue : SegmentDict := toSegmentDict (mkSeg 42 0 (3/2) "Hi")

/-- Second cue of the subtitle examples; its stored ordinal id 7 differs
from its 1-based position. -/
def thereCue : SegmentDict := toSegmentDict (mkSeg 7 (3/2) 3 "there")

/-- First segment of the spec's full-text example: raw text `" Hello "`. -/
def helloSeg : Segment := mkSeg 0 0 1 " Hello "

/-- Second segment of the spec's full-text example: raw text `" world."`. -/
def worldSeg : Segment := mkSeg 1 1 2 " world."

/-- A filesystem with no directories and no files. -/
def fsEmpty : FS := { dirs := [], files := [] }

/-- A filesystem holding only the audio file `a.wav`. -/
def fsWithAudio : FS := { dirs := [], files := [["a.wav"]] }

/-- A concrete aggregated result used by the orchestrator examples. -/
def exResult : TranscriptionResult :=
  { text := "", segments := [], language := "en", language_probability := 1,
    duration := 0, duration_after_vad := 0, audio_file := ["a.wav"] }

end SyncScribe

namespace SyncScribe

lemma charReplace_eq_map (l : List Char) :
    charReplace l = l.map (fun c => if c = '.' then ',' else c) := by
  induction l with
  | nil => rfl
  | cons c cs ih => simp [charReplace, ih]

lemma rndHalfEven_natCast (m : ℕ) : rndHalfEven (m : ℚ) = m := by
  simp [rndHalfEven]

/-- On inputs that are an exact whole number of milliseconds,
`_format_timestamp` reduces to natural-number arithmetic. -/
lemma format_timestamp_millis (n : ℕ) (b : Bool) :
    _format_timestamp ((n : ℚ) / 1000) b =
      (if b then fmtMillis n else String.mk (charReplace (fmtMillis n).data)) := by
  have h1 : ⌊((n : ℚ) / 1000) / 3600⌋ = ((n / 3600000 : ℕ) : ℤ) := by
    rw [div_div, show ((1000 : ℚ) * 3600) = ((3600000 : ℕ) : ℚ) by norm_num]
    exact Rat.floor_natCast_div_natCast n 3600000
  have h3 : ⌊((n : ℚ) / 1000) / 60⌋ = ((n / 60000 : ℕ) : ℤ) := by
    rw [div_div, show ((1000 : ℚ) * 60) = ((60000 : ℕ) : ℚ) by norm_num]
    exact Rat.floor_natCast_div_natCast n 60000
  have hn2 : (n : ℚ) = 3600000 * ((n / 3600000 : ℕ) : ℚ) + ((n % 3600000 : ℕ) : ℚ) := by
    exact_mod_cast congrArg (Nat.cast : ℕ → ℚ) (Nat.div_add_mod n 3600000).symm
  have hn3 : (n : ℚ) = 60000 * ((n / 60000 : ℕ) : ℚ) + ((n % 60000 : ℕ) : ℚ) := by
    exact_mod_cast congrArg (Nat.cast : ℕ → ℚ) (Nat.div_add_mod n 60000).symm
  have e2 : (n : ℚ) / 1000 - 3600 * (((n / 3600000 : ℕ) : ℤ) : ℚ) =
      ((n % 3600000 : ℕ) : ℚ) / 1000 := by
    rw [Int.cast_natCast]
    rw [hn2]; ring
  have h2 : ⌊(((n % 3600000 : ℕ) : ℚ) / 1000) / 60⌋ = ((n % 3600000 / 60000 : ℕ) : ℤ) := by
    rw [div_div, show ((1000 : ℚ) * 60) = ((60000 : ℕ) : ℚ) by norm_num]
    exact Rat.floor_natCast_div_natCast _ 60000
  have e3 : (n : ℚ) / 1000 - 60 * (((n / 60000 : ℕ) : ℤ) : ℚ) =
      ((n % 60000 : ℕ) : ℚ) / 1000 := by
    rw [Int.cast_natCast]
    rw [hn3]; ring
  have e4 : (1000 : ℚ) * (((n % 60000 : ℕ) : ℚ) / 1000) = ((n % 60000 : ℕ) : ℚ) := by
    ring
  simp only [_format_timestamp, fmtSecs, fmtMillis, h1, h3, e2, e3, e4, h2,
    rndHalfEven_natCast, Int.toNat_natCast]

lemma ts_0_srt : _format_timestamp 0 false = "00:00:00,000" := by
  rw [show (0 : ℚ) = ((0 : ℕ) : ℚ) / 1000 by norm_num, format_timestamp_millis]
  decide

lemma ts_0_vtt : _format_timestamp 0 true = "00:00:00.000" := by
  rw [show (0 : ℚ) = ((0 : ℕ) : ℚ) / 1000 by norm_num, format_timestamp_millis]
  decide

lemma ts_1_5_srt : _format_timestamp (3/2) false = "00:00:01,500" := by
  rw [show (3/2 : ℚ) = ((1500 : ℕ) : ℚ) / 1000 by norm_num, format_timestamp_millis]
  decide

lemma ts_1_5_vtt : _format_timestamp (3/2) true = "00:00:01.500" := by
  rw [show (3/2 : ℚ) = ((1500 : ℕ) : ℚ) / 1000 by norm_num, format_timestamp_millis]
  decide

lemma ts_3_srt : _format_timestamp 3 false = "00:00:03,000" := by
  rw [show (3 : ℚ) = ((3000 : ℕ) : ℚ) / 1000 by norm_num, format_timestamp_millis]
  decide

lemma ts_3_vtt : _format_timestamp 3 true = "00:00:03.000" := by
  rw [show (3 : ℚ) = ((3000 : ℕ) : ℚ) / 1000 by norm_num, format_timestamp_millis]
  decide

lemma srtBody_eq (i : ℕ) (segments : List SegmentDict) :
    srtBody i segments =
      concatAll ((List.enumFrom i segments).map (fun p => srtBlock p.1 p.2)) := by
  induction segments generalizing i with
  | nil => rfl
  | cons s rest ih => simp [srtBody, List.enumFrom, concatAll, ih]

lemma vttBody_eq (segments : List SegmentDict) :
    vttBody segments = concatAll (segments.map vttBlock) := by
  induction segments with
  | nil => rfl
  | cons s rest ih => simp [vttBody, concatAll, ih]

lemma string_append_empty (s : String) : s ++ "" = s := by
  cases s; simp [String.append]

lemma string_empty_append (s : String) : "" ++ s = s := by
  cases s; simp [String.append]

lemma pyStrip_empty : pyStrip "" = "" := rfl

lemma processSegments_loop (segments : List Segment) (acc : List SegmentDict × String) :
    segments.foldl
      (fun a segment => (a.1 ++ [toSegmentDict segment], a.2 ++ segment.text)) acc =
      (acc.1 ++ segments.map toSegmentDict,
       acc.2 ++ concatAll (segments.map Segment.text)) := by
  induction segments generalizing acc with
  | nil => simp [concatAll, string_append_empty]
  | cons s rest ih =>
    simp only [List.foldl_cons, List.map_cons, concatAll]
    rw [ih]
    simp [List.append_assoc, String.append_assoc]

lemma processSegments_eq (segments : List Segment) :
    processSegments segments =
      (segments.map toSegmentDict, concatAll (segments.map Segment.text)) := by
  unfold processSegments
  rw [processSegments_loop]
  simp [string_empty_append]

lemma transcribe_of_not_mem (fs : FS) (modelSegments : List Segment)
    (info : TranscriptionInfo) (audio_path : List String)
    (h : audio_path ∉ fs.files) :
    transcribe fs modelSegments info audio_path =
      (Except.error (TranscribeError.fileNotFound audio_path), []) := by
  simp [transcribe, h]

end SyncScribe

namespace SyncScribe

/-- C2: hours and minutes come from floor division, all fields are
zero-padded (hours to at least two digits, never truncated), seconds carry
exactly three decimal digits; `_format_timestamp 3725.125` renders as
`"01:02:05,125"` (SRT) and `"01:02:05.125"` (VTT), `0.0` as
`"00:00:00,000"`, and a duration above 99 hours keeps all hour digits. -/
theorem format_timestamp_spec :
    _format_timestamp 3725.125 false = "01:02:05,125" ∧
    _format_timestamp 3725.125 true = "01:02:05.125" ∧
    _format_timestamp 0 false = "00:00:00,000" ∧
    _format_timestamp 360000.5 false = "100:00:00,500" ∧
    (∀ s : ℚ, 0 ≤ s →
      _format_timestamp s true =
        fmt2 (⌊s / 3600⌋).toNat ++ ":" ++
        fmt2 (⌊(s - 3600 * (⌊s / 3600⌋ : ℚ)) / 60⌋).toNat ++ ":" ++
        fmtSecs (s - 60 * (⌊s / 60⌋ : ℚ))) := by
  refine ⟨?_, ?_, ts_0_srt, ?_, fun s _ => rfl⟩
  · rw [show (3725.125 : ℚ) = ((3725125 : ℕ) : ℚ) / 1000 by norm_num,
      format_timestamp_millis]
    decide
  · rw [show (3725.125 : ℚ) = ((3725125 : ℕ) : ℚ) / 1000 by norm_num,
      format_timestamp_millis]
    decide
  · rw [show (360000.5 : ℚ) = ((360000500 : ℕ) : ℚ) / 1000 by norm_num,
      format_timestamp_millis]
    decide

/-- Witness for `format_timestamp_spec`: the universally quantified
decomposition at the concrete input 2 seconds. -/
theorem format_timestamp_spec_witness :
    _format_timestamp 2 true =
      fmt2 (⌊(2 : ℚ) / 3600⌋).toNat ++ ":" ++
      fmt2 (⌊((2 : ℚ) - 3600 * (⌊(2 : ℚ) / 3600⌋ : ℚ)) / 60⌋).toNat ++ ":" ++
      fmtSecs ((2 : ℚ) - 60 * (⌊(2 : ℚ) / 60⌋ : ℚ)) :=
  format_timestamp_spec.2.2.2.2 2 (by norm_num)

/-- C7: for every seconds value, the SRT rendering is the VTT rendering
with every `'.'` character replaced by `','` (and nothing else changed). -/
theorem format_timestamp_srt_vtt :
    ∀ s : ℚ, (_format_timestamp s false).data =
      (_format_timestamp s true).data.map (fun c => if c = '.' then ',' else c) := by
  intro s
  simp [_format_timestamp, charReplace_eq_map]

/-- C3: the SRT writer emits, per segment in order, an index line counting
from 1 (independent of the stored ordinal ids — here 42 and 7), the SRT
timestamp line, the stripped text and a blank line; on the spec's two-cue
example the output is byte-exact. -/
theorem save_srt_spec :
    (∀ segments : List SegmentDict,
      _save_srt segments =
        concatAll ((List.enumFrom 1 segments).map (fun p => srtBlock p.1 p.2))) ∧
    _save_srt [hiCue, thereCue] =
      "1\n00:00:00,000 --> 00:00:01,500\nHi\n\n2\n00:00:01,500 --> 00:00:03,000\nthere\n\n" := by
  constructor
  · exact fun segments => srtBody_eq 1 segments
  · show srtBody 1 [hiCue, thereCue] = _
    rw [srtBody, srtBody, srtBody]
    rw [srtBlock, srtBlock]
    rw [show hiCue.start = 0 from rfl, show hiCue.«end» = 3/2 from rfl,
        show thereCue.start = 3/2 from rfl, show thereCue.«end» = 3 from rfl]
    rw [ts_0_srt, ts_1_5_srt, ts_3_srt]
    decide

/-- C6: the VTT writer emits the literal `WEBVTT` header and a blank line,
then per segment in order the VTT timestamp line, the stripped text and a
blank line, with no index lines; on the same two-cue example the output is
byte-exact. -/
theorem save_vtt_spec :
    (∀ segments : List SegmentDict,
      _save_vtt segments = "WEBVTT\n\n" ++ concatAll (segments.map vttBlock)) ∧
    _save_vtt [hiCue, thereCue] =
      "WEBVTT\n\n00:00:00.000 --> 00:00:01.500\nHi\n\n00:00:01.500 --> 00:00:03.000\nthere\n\n" := by
  constructor
  · intro segments
    show "WEBVTT\n\n" ++ vttBody segments = _
    rw [vttBody_eq]
  · show "WEBVTT\n\n" ++ vttBody [hiCue, thereCue] = _
    rw [vttBody, vttBody, vttBody]
    rw [vttBlock, vttBlock]
    rw [show hiCue.start = 0 from rfl, show hiCue.«end» = 3/2 from rfl,
        show thereCue.start = 3/2 from rfl, show thereCue.«end» = 3 from rfl]
    rw [ts_0_vtt, ts_1_5_vtt, ts_3_vtt]
    decide

/-- C1: the drained result's full text is the raw (untrimmed) segment
texts concatenated in emission order and stripped only once at the end,
while each stored segment record's text is individually stripped; on the
spec's example (`" Hello "`, `" world."`) the full text is
`"Hello  world."` with the inner double space preserved. -/
theorem transcribe_full_text_spec :
    (∀ segments : List Segment,
      (processSegments segments).2 = concatAll (segments.map Segment.text) ∧
      (processSegments segments).1.map SegmentDict.text =
        segments.map (fun s => pyStrip s.text)) ∧
    (∀ (fs : FS) (modelSegments : List Segment) (info : TranscriptionInfo)
        (audio_path : List String), audio_path ∈ fs.files →
      Except.map TranscriptionResult.text (transcribe fs modelSegments info audio_path).1 =
        Except.ok (pyStrip (concatAll (modelSegments.map Segment.text)))) ∧
    pyStrip (processSegments [helloSeg, worldSeg]).2 = "Hello  world." ∧
    (processSegments [helloSeg, worldSeg]).1.map SegmentDict.text = ["Hello", "world."] := by
  refine ⟨fun segments => ⟨?_, ?_⟩, ?_, ?_, ?_⟩
  · rw [processSegments_eq]
  · rw [processSegments_eq]
    simp [List.map_map]
    exact fun a _ => rfl
  · intro fs modelSegments info audio_path h
    simp [transcribe, h, processSegments_eq, Except.map]
  · rw [processSegments_eq]
    decide
  · rw [processSegments_eq]
    decide

/-- Witness for `transcribe_full_text_spec`: the full text returned by
`transcribe` on an existing file equals the stripped concatenation of the
raw texts, at the concrete two-segment input. -/
theorem transcribe_full_text_spec_witness :
    Except.map TranscriptionResult.text
        (transcribe fsWithAudio [helloSeg, worldSeg] exInfo ["a.wav"]).1 =
      Except.ok (pyStrip (concatAll ([helloSeg, worldSeg].map Segment.text))) :=
  transcribe_full_text_spec.2.1 fsWithAudio [helloSeg, worldSeg] exInfo ["a.wav"] (by decide)

/-- C8: aggregation changes neither the number nor the order of segments:
the stored list has the input's length and the ordinal ids in emission
order, and when the adapter emits non-decreasing ids the stored ids are
non-decreasing too; `transcribe` returns exactly this stored list. -/
theorem transcribe_segments_order (segments : List Segment)
    (h : List.Chain' (· ≤ ·) (segments.map Segment.id)) :
    (processSegments segments).1.length = segments.length ∧
    (processSegments segments).1.map SegmentDict.id = segments.map Segment.id ∧
    List.Chain' (· ≤ ·) ((processSegments segments).1.map SegmentDict.id) ∧
    (∀ (fs : FS) (info : TranscriptionInfo) (audio_path : List String),
      audio_path ∈ fs.files →
      Except.map TranscriptionResult.segments (transcribe fs segments info audio_path).1 =
        Except.ok (processSegments segments).1) := by
  have hmap : (processSegments segments).1.map SegmentDict.id = segments.map Segment.id := by
    rw [processSegments_eq]
    simp [List.map_map]
    exact fun a _ => rfl
  refine ⟨?_, hmap, ?_, ?_⟩
  · rw [processSegments_eq]
    simp
  · rw [hmap]
    exact h
  · intro fs info audio_path hmem
    simp [transcribe, hmem, processSegments_eq, Except.map]

/-- Witness for `transcribe_segments_order`: order preservation at the
concrete two-segment input with ids 0, 1. -/
theorem transcribe_segments_order_witness :
    (processSegments [helloSeg, worldSeg]).1.map SegmentDict.id =
      [helloSeg, worldSeg].map Segment.id :=
  (transcribe_segments_order [helloSeg, worldSeg]
    (by norm_num [helloSeg, worldSeg, mkSeg, List.chain'_cons])).2.1

/-- C9: on an empty segment stream, `transcribe` raises nothing and returns
a fully populated result with empty full text and empty segment list
(after having invoked both collaborators). -/
theorem transcribe_empty_stream (fs : FS) (info : TranscriptionInfo)
    (audio_path : List String) (h : audio_path ∈ fs.files) :
    transcribe fs [] info audio_path =
      (Except.ok
        { text := "", segments := [], language := info.language,
          language_probability := info.language_probability,
          duration := info.duration, duration_after_vad := info.duration_after_vad,
          audio_file := audio_path },
       [CollabEvent.loadAudio, CollabEvent.modelTranscribe]) := by
  simp [transcribe, h, processSegments, pyStrip_empty]

/-- Witness for `transcribe_empty_stream`: at the concrete filesystem
holding `a.wav`. -/
theorem transcribe_empty_stream_witness :
    transcribe fsWithAudio [] exInfo ["a.wav"] =
      (Except.ok
        { text := "", segments := [], language := exInfo.language,
          language_probability := exInfo.language_probability,
          duration := exInfo.duration, duration_after_vad := exInfo.duration_after_vad,
          audio_file := ["a.wav"] },
       [CollabEvent.loadAudio, CollabEvent.modelTranscribe]) :=
  transcribe_empty_stream fsWithAudio exInfo ["a.wav"] (by decide)

/-- C4: when the audio path does not exist, `transcribe` fails with the
file-not-found error and the collaborator trace is empty: neither the
audio loader nor the inference adapter was invoked, and no partial result
is returned. -/
theorem transcribe_missing_file (fs : FS) (modelSegments : List Segment)
    (info : TranscriptionInfo) (audio_path : List String)
    (h : audio_path ∉ fs.files) :
    transcribe fs modelSegments info audio_path =
      (Except.error (TranscribeError.fileNotFound audio_path), []) :=
  transcribe_of_not_mem fs modelSegments info audio_path h

/-- Witness for `transcribe_missing_file`: on the empty filesystem. -/
theorem transcribe_missing_file_witness :
    transcribe fsEmpty [helloSeg] exInfo ["missing.wav"] =
      (Except.error (TranscribeError.fileNotFound ["missing.wav"]), []) :=
  transcribe_missing_file fsEmpty [helloSeg] exInfo ["missing.wav"] (by decide)

/-- C5: a format tag other than txt/json/srt/vtt is silently ignored by
the dispatch loop — deleting it from any position of the format list does
not change the writes performed and nothing fails — and `transcribe_file`
returns the same aggregated result whatever the format list (including
the empty one). -/
theorem transcribe_file_unknown_format (fmt : String) (h : fmt ∉ knownFormats) :
    (∀ (output_path : List String) (base_name : String)
        (result : TranscriptionResult) (pre post : List String),
      writeOutputs output_path base_name result (pre ++ fmt :: post) =
        writeOutputs output_path base_name result (pre ++ post)) ∧
    (∀ (fs : FS) (modelSegments : List Segment) (info : TranscriptionInfo)
        (audio_path : List String) (output_path : Option (List String))
        (output_formats : List String),
      Except.map Prod.fst
          (transcribe_file fs modelSegments info audio_path output_path output_formats).1 =
        Except.map Prod.fst
          (transcribe_file fs modelSegments info audio_path output_path []).1) := by
  have hne : fmt ≠ "txt" ∧ fmt ≠ "json" ∧ fmt ≠ "srt" ∧ fmt ≠ "vtt" := by
    simpa [knownFormats] using h
  constructor
  · intro output_path base_name result pre post
    unfold writeOutputs
    rw [List.foldl_append, List.foldl_append, List.foldl_cons]
    congr 1
    simp [writeStep, hne.1, hne.2.1, hne.2.2.1, hne.2.2.2]
  · intro fs modelSegments info audio_path output_path output_formats
    cases output_path with
    | none =>
      rcases hE : transcribe fs modelSegments info audio_path with ⟨res, events⟩
      cases res <;> simp [transcribe_file, hE, Except.map]
    | some p =>
      rcases hE : transcribe (mkdir_parents p fs) modelSegments info audio_path
        with ⟨res, events⟩
      cases res <;> simp [transcribe_file, hE, Except.map]

/-- Witness for `transcribe_file_unknown_format`: the unknown tag `"md"`
performs no write. -/
theorem transcribe_file_unknown_format_witness :
    writeOutputs ["out"] "a" exResult ([] ++ "md" :: []) =
      writeOutputs ["out"] "a" exResult ([] ++ []) :=
  (transcribe_file_unknown_format "md" (by decide)).1 ["out"] "a" exResult [] []

/-- C10: calling `transcribe_file` with an explicit output directory and a
missing audio path creates the directory and all its ancestors first, then
fails with the file-not-found error having invoked no collaborator; the
created directory is still present in the filesystem state the failed call
leaves behind. -/
theorem transcribe_file_mkdir_persists (fs : FS) (modelSegments : List Segment)
    (info : TranscriptionInfo) (audio_path : List String) (d : List String)
    (output_formats : List String)
    (h1 : audio_path ∉ fs.files) (h2 : d ∉ fs.dirs) :
    (transcribe_file fs modelSegments info audio_path (some d) output_formats).1 =
      Except.error (TranscribeError.fileNotFound audio_path) ∧
    (transcribe_file fs modelSegments info audio_path (some d) output_formats).2.2 = [] ∧
    ((List.range d.length).map (fun k => d.take (k + 1))) ⊆
      (transcribe_file fs modelSegments info audio_path (some d) output_formats).2.1.dirs ∧
    (d ≠ [] →
      d ∈ (transcribe_file fs modelSegments info audio_path (some d) output_formats).2.1.dirs) := by
  have hE := transcribe_of_not_mem (mkdir_parents d fs) modelSegments info audio_path h1
  have hred : transcribe_file fs modelSegments info audio_path (some d) output_formats =
      (Except.error (TranscribeError.fileNotFound audio_path), mkdir_parents d fs, []) := by
    simp [transcribe_file, hE]
  rw [hred]
  refine ⟨rfl, rfl, ?_, ?_⟩
  · show _ ⊆ fs.dirs ++ (List.range d.length).map (fun k => d.take (k + 1))
    exact List.subset_append_right _ _
  · intro hd
    have hpos : 0 < d.length := List.length_pos.mpr hd
    have hmem : d ∈ (List.range d.length).map (fun k => d.take (k + 1)) := by
      refine List.mem_map.mpr ⟨d.length - 1, ?_, ?_⟩
      · exact List.mem_range.mpr (Nat.sub_lt hpos one_pos)
      · rw [Nat.sub_add_cancel hpos, List.take_length]
    show d ∈ fs.dirs ++ (List.range d.length).map (fun k => d.take (k + 1))
    exact List.mem_append.mpr (Or.inr hmem)

/-- Witness for `transcribe_file_mkdir_persists`: on the empty filesystem
the directory `out/sub` exists after the failed call. -/
theorem transcribe_file_mkdir_persists_witness :
    (transcribe_file fsEmpty [] exInfo ["a.wav"] (some ["out", "sub"]) ["txt"]).1 =
      Except.error (TranscribeError.fileNotFound ["a.wav"]) ∧
    ["out", "sub"] ∈
      (transcribe_file fsEmpty [] exInfo ["a.wav"] (some ["out", "sub"]) ["txt"]).2.1.dirs :=
  ⟨(transcribe_file_mkdir_persists fsEmpty [] exInfo ["a.wav"] ["out", "sub"] ["txt"]
      (by decide) (by decide)).1,
   (transcribe_file_mkdir_persists fsEmpty [] exInfo ["a.wav"] ["out", "sub"] ["txt"]
      (by decide) (by decide)).2.2.2 (by decide)⟩

end SyncScribe
